import Mathlib

/-!
Verification of the Minecraft server Telegram bot (src/main.py) against its
specification.  The Python source is shallowly embedded below: each Python
function relevant to the claims becomes a Lean definition of the same name,
stateful code becomes explicit state passing over `BotState`, filesystem and
network collaborators become an explicit `Env` record of inputs, and
exceptions caught by the source's try/except blocks become explicit
alternative results.
-/

namespace McBot

/-- A file in the backup directory, as seen by `Path.glob` + `stat`:
its name and its modification time. -/
structure FileEntry where
  name : String
  mtime : Nat
deriving DecidableEq, Repr

/-- The in-memory `self.backup_settings` dict.  The Python code stores a JSON
dict and reads every key with `.get(key, default)`, so a key may be absent;
`Option` models an absent key and `Option.getD` models `.get`. -/
structure BackupSettings where
  enabled : Option Bool
  interval : Option String
  time : Option String
  keep_count : Option Int
deriving DecidableEq, Repr

/-- An armed `aiocron.crontab` job, identified by its cron expression. -/
structure CronJob where
  cronSpec : String
deriving DecidableEq, Repr

/-- One `{"uuid": ..., "name": ...}` whitelist record. -/
structure Player where
  uuid : String
  name : String
deriving DecidableEq, Repr

/-- The mutable state owned by `MinecraftServerBot`: the configured admin id,
the backup settings dict, the (at most one) scheduled job, the contents of the
backup directory, and the whitelist file. -/
structure BotState where
  adminId : Int
  settings : BackupSettings
  backupJob : Option CronJob
  disk : List FileEntry
  whitelist : List Player
deriving DecidableEq, Repr

/-- External collaborators and filesystem/process facts for one request:
what `systemctl`/log reads would return, whether RCON is configured, whether
the world directory exists, whether the tar write succeeds, the timestamp
used for the artifact name, which `unlink` calls raise, and whether the
Telegram upload and whitelist save succeed. -/
structure Env where
  statusText : String
  infoText : String
  logsText : String
  serviceStatusText : String
  rconAvailable : Bool
  rconResponse : String
  commandFileWriteOk : Bool
  worldExists : Bool
  tarWriteOk : Bool
  timestamp : String
  now : Nat
  uploadOk : Bool
  deleteFails : String → Bool
  whitelistSaveOk : Bool

/-- `MinecraftServerBot.is_admin`: exact equality of the requester id with
the configured `ADMIN_ID`.  (Python `==` on ints; total, never raises.) -/
def is_admin (bot : BotState) (user_id : Int) : Bool :=
  user_id == bot.adminId

/-- Model of Python `str.split(sep)` for a single-character separator,
computed over the character list.  `"".split(":") = [""]`,
`"a::b".split(":") = ["a", "", "b"]`. -/
def splitCharsOn (c : Char) : List Char → List (List Char)
  | [] => [[]]
  | x :: xs =>
    let r := splitCharsOn c xs
    if x = c then [] :: r
    else
      match r with
      | [] => [[x]]
      | y :: ys => (x :: y) :: ys

/-- Python `s.split(c)` (single-character separator). -/
def pySplit (t : String) (c : Char) : List String :=
  (splitCharsOn c t.data).map fun l => ⟨l⟩

/-- Parse a list of decimal digit characters; `none` if empty or any
non-digit appears. -/
def parseNatChars (l : List Char) : Option Nat :=
  if l.isEmpty then none
  else if l.all Char.isDigit then
    some (l.foldl (fun n c => n * 10 + (c.toNat - 48)) 0)
  else none

/-- Model of Python `int(s)` on a decimal string, returning `none` where the
Python call raises `ValueError`.  (Exotic Python literals with underscores or
surrounding whitespace are not modelled; no claim depends on them.) -/
def pyToInt (s : String) : Option Int :=
  match s.data with
  | [] => none
  | '-' :: rest => (parseNatChars rest).map fun n => -(n : Int)
  | l => (parseNatChars l).map fun n => (n : Int)

/-- Python `f"{n:02d}"` for `0 ≤ n < 100` (the code only formats validated
hours and minutes). -/
def natDigits2 (n : Nat) : String :=
  ⟨[Char.ofNat (48 + n / 10), Char.ofNat (48 + n % 10)]⟩

/-- The `f"{hour:02d}:{minute:02d}"` formatting in `handle_text`. -/
def fmtTime (h m : Int) : String :=
  natDigits2 h.toNat ++ ":" ++ natDigits2 m.toNat

/-- The `world_backup_*.tar.gz` glob used by `cleanup_old_backups`,
as a predicate on a file name. -/
def isArtifactName (n : String) : Bool :=
  "world_backup_".data.isPrefixOf n.data && ".tar.gz".data.isSuffixOf n.data

/-- Stable insertion of `x` behind every already-placed entry with a strictly
larger or equal-and-earlier mtime; used to model Python's stable
`sort(key=mtime, reverse=True)`. -/
def insertDesc (x : FileEntry) : List FileEntry → List FileEntry
  | [] => [x]
  | y :: ys => if x.mtime < y.mtime then y :: insertDesc x ys else x :: y :: ys

/-- `backup_files.sort(key=lambda x: x.stat().st_mtime, reverse=True)`:
stable sort, newest first. -/
def sortDesc : List FileEntry → List FileEntry
  | [] => []
  | x :: xs => insertDesc x (sortDesc xs)

/-- Python slice `lst[k:]` for an `int` index (negative indices count from
the end, clamped at the start). -/
def pyDropInt (l : List α) (k : Int) : List α :=
  if 0 ≤ k then l.drop k.toNat else l.drop (l.length - (-k).toNat)

/-- The `for old_backup in backup_files[keep_count:]: old_backup.unlink()`
loop.  A raising `unlink` (given by `fail`) escapes the loop to the outer
`except`, so later entries are not attempted.  Returns the names actually
unlinked and whether an exception was caught (logged). -/
def deleteRun (fail : String → Bool) : List FileEntry → List String × Bool
  | [] => ([], false)
  | f :: fs =>
    if fail f.name then ([], true)
    else
      let r := deleteRun fail fs
      (f.name :: r.1, r.2)

/-- `MinecraftServerBot.cleanup_old_backups`: glob the artifact pattern, sort
by mtime descending, and delete everything past index `keep_count`.  The
Python function returns `None`; the returned pair here records which files
were unlinked and whether the surrounding `except` fired, so that theorems
can talk about the pass's effect. -/
def cleanup_old_backups (fail : String → Bool) (disk : List FileEntry)
    (settings : BackupSettings) : List String × Bool :=
  let backup_files := sortDesc (disk.filter fun f => isArtifactName f.name)
  let keep_count := settings.keep_count.getD 7
  if (backup_files.length : Int) > keep_count then
    deleteRun fail (pyDropInt backup_files keep_count)
  else ([], false)

/-- The backup directory after the names in `deleted` have been unlinked. -/
def remainingAfter (disk : List FileEntry) (deleted : List String) : List FileEntry :=
  disk.filter fun f => decide (f.name ∉ deleted)

/-- Number of files in the directory matching the artifact glob. -/
def countArtifacts (disk : List FileEntry) : Nat :=
  (disk.filter fun f => isArtifactName f.name).length

/-- `MinecraftServerBot.create_backup`.  Returns the Python
`(success, message, backup_path)` triple together with the backup directory
afterwards.  `tarfile.open(backup_path, "w:gz")` creates the output file at
its final artifact name before writing, so a failure during `tar.add`
(modelled by `tarWriteOk = false`) leaves a partial file at that name; the
exception is caught and reported as a failed result. -/
def create_backup (env : Env) (disk : List FileEntry) :
    (Bool × String × Option String) × List FileEntry :=
  if env.worldExists = false then
    ((false, "Директория мира не найдена", none), disk)
  else
    let backup_name := "world_backup_" ++ env.timestamp ++ ".tar.gz"
    if env.tarWriteOk then
      ((true, "Бэкап создан: " ++ backup_name, some backup_name),
       disk ++ [⟨backup_name, env.now⟩])
    else
      ((false, "Ошибка создания бэкапа", none),
       disk ++ [⟨backup_name, env.now⟩])

/-- What one scheduled pipeline run did: whether the backup succeeded and
whether the retention pass and the chat upload were reached. -/
structure Outcome where
  success : Bool
  retentionInvoked : Bool
  uploadInvoked : Bool
deriving DecidableEq, Repr

/-- `MinecraftServerBot.auto_backup_task` (the scheduled pipeline): create the
archive; only `if success and backup_path:` run the retention pass and then
send the document to the backup chat; otherwise log the failure.  The Python
coroutine returns `None`; `Outcome` records which stages ran. -/
def auto_backup_task (env : Env) (bot : BotState) : Outcome × BotState :=
  let r := create_backup env bot.disk
  match r.1.1, r.1.2.2 with
  | true, some _p =>
    let d := cleanup_old_backups env.deleteFails r.2 bot.settings
    ({ success := true, retentionInvoked := true, uploadInvoked := true },
     { bot with disk := remainingAfter r.2 d.1 })
  | _, _ =>
    ({ success := false, retentionInvoked := false, uploadInvoked := false },
     { bot with disk := r.2 })

/-- The `aiocron.crontab(...)` arming chain in `setup_auto_backup`: one case
per recognised interval string; for daily/weekly the stored time string is
unpacked with `hour, minute = backup_time.split(":")`, and a split that does
not yield exactly two parts raises `ValueError`, caught by the surrounding
`except` (result `none`).  An unrecognised interval matches no branch and
arms nothing without raising. -/
def armJob (interval btime : String) : Option CronJob :=
  if interval = "15min" then some ⟨"*/15 * * * *"⟩
  else if interval = "30min" then some ⟨"*/30 * * * *"⟩
  else if interval = "hourly" then some ⟨"0 * * * *"⟩
  else if interval = "daily" then
    match pySplit btime ':' with
    | [h, m] => some ⟨m ++ " " ++ h ++ " * * *"⟩
    | _ => none
  else if interval = "weekly" then
    match pySplit btime ':' with
    | [h, m] => some ⟨m ++ " " ++ h ++ " * * 0"⟩
    | _ => none
  else none

/-- `MinecraftServerBot.setup_auto_backup`: the previous job is stopped and
`self.backup_job` is set to `None` first; then, if enabled, the new crontab
is computed.  The final job is therefore `none` whenever disabling, arming
failure, or an unrecognised interval occurs — the stopped previous job is
never restored. -/
def setup_auto_backup (settings : BackupSettings) : Option CronJob :=
  if settings.enabled.getD false = false then none
  else armJob (settings.interval.getD "daily") (settings.time.getD "03:00")

/-- State update performed by every caller of `setup_auto_backup`:
`self.backup_job` is replaced by the newly armed job (or `None`). -/
def apply_setup_auto_backup (bot : BotState) : BotState :=
  { bot with backupJob := setup_auto_backup bot.settings }

/-- `MinecraftServerBot.load_backup_settings`: if the settings file exists and
parses, `self.backup_settings` is replaced wholesale by its contents with no
validation; a missing file or a caught exception leaves the current settings
in place. -/
def load_backup_settings (fileContents : Option BackupSettings)
    (current : BackupSettings) : BackupSettings :=
  match fileContents with
  | some loaded => loaded
  | none => current

/-- The `Config` defaults for the backup settings dict built in
`MinecraftServerBot.__init__`. -/
def defaultSettings : BackupSettings :=
  { enabled := some false, interval := some "daily",
    time := some "03:00", keep_count := some 7 }

/-- The spec invariant on `keep_count`: always in `[1, 50]`. -/
def keepOk (k : Int) : Prop := 1 ≤ k ∧ k ≤ 50

/-- The spec invariant on `time_of_day`: the stored string is the canonical
`HH:MM` rendering of a valid 24-hour time. -/
def timeOk (t : String) : Prop :=
  ∃ h m : Int, 0 ≤ h ∧ h ≤ 23 ∧ 0 ≤ m ∧ m ≤ 59 ∧ t = fmtTime h m

/-- The BackupSettings invariant of the spec, read through the `.get`
defaults the code uses. -/
def validSettings (s : BackupSettings) : Prop :=
  keepOk (s.keep_count.getD 7) ∧ timeOk (s.time.getD "03:00")

/-- An externally observable side effect of a handler: a `systemctl` verb, a
server command relayed via `execute_server_command`, a document upload, or a
durable file save. -/
inductive Effect where
  | systemctl (verb : String)
  | sysquery (what : String)
  | serverCommand (cmd : String)
  | sendDocument (path : String)
  | saveSettings
  | saveWhitelist
deriving DecidableEq, Repr

/-- What one inbound request produced: the texts sent back to the requester
(answers, message edits and callback alerts alike), the external side
effects, and the bot state afterwards. -/
structure HandlerOutcome where
  replies : List String
  effects : List Effect
  state' : BotState
deriving DecidableEq, Repr

/-- The reply-context a free-text message is answering, detected in
`handle_text` by substring tests on `message.reply_to_message.text`. -/
inductive ReplyCtx where
  | addPlayer
  | sendMsg
  | setTime
  | setCount
  | plain
deriving DecidableEq, Repr

/-- One inbound request: a slash command, a button press (callback data), or
a free-text message. -/
inductive Request where
  | start
  | status
  | info
  | logs (n : Nat)
  | whitelistCmd
  | backupCmd
  | commandCmd (args : Option String)
  | messageCmd (args : Option String)
  | helpCmd
  | cb (data : String)
  | text (content : String) (ctx : ReplyCtx)
deriving DecidableEq, Repr

/-- `MinecraftServerBot.execute_server_command`: RCON when configured, else a
line appended to the local command file (success with a recorded-only note),
else a caught write error. -/
def execute_server_command (env : Env) (_cmd : String) : Bool × String :=
  if env.rconAvailable then (true, "RCON: " ++ env.rconResponse)
  else if env.commandFileWriteOk then (true, "Команда записана")
  else (false, "Ошибка записи команды")

/-- The backup flow shared verbatim by `cmd_backup` and
`callback_create_backup`: create the archive, report, and on success try to
send the document to the backup chat (an upload failure is caught and
reported separately; no retention pass is run on this path). -/
def manualBackup (env : Env) (bot : BotState) : HandlerOutcome :=
  let r := create_backup env bot.disk
  match r.1.1, r.1.2.2 with
  | true, some p =>
    if env.uploadOk then
      { replies := ["⏳ Создаю бэкап мира...", "✅ " ++ r.1.2.1],
        effects := [.sendDocument p],
        state' := { bot with disk := r.2 } }
    else
      { replies := ["⏳ Создаю бэкап мира...", "✅ " ++ r.1.2.1,
                    "⚠️ Бэкап создан, но не отправлен в чат"],
        effects := [.sendDocument p],
        state' := { bot with disk := r.2 } }
  | _, _ =>
    { replies := ["⏳ Создаю бэкап мира...", "❌ " ++ r.1.2.1],
      effects := [],
      state' := { bot with disk := r.2 } }

/-- The `/start` welcome text (abridged). -/
def welcomeText : String := "🤖 Minecraft Server Bot: панель управления"

/-- The `/help` text (abridged). -/
def helpText : String := "📚 Помощь по командам"

/-- `_get_backup_settings_text` (abridged to the status line). -/
def settingsText (s : BackupSettings) : String :=
  let status := if s.enabled.getD false then "✅ Включены" else "❌ Отключены"
  "⚙️ Настройки автоматических бэкапов: " ++ status

/-- `callback_show_whitelist` body text. -/
def showWhitelistText (wl : List Player) : String :=
  if wl.isEmpty then "📋 Белый список пуст"
  else "📋 Белый список:\n" ++ String.intercalate "\n" (wl.map fun p => "• " ++ p.name)

/-- The time-input validation in `handle_text`: split on the colon, require
exactly two parts, convert both with `int`, and range-check; any failure
raises `ValueError`, caught by the handler (`none`). -/
def parseTimeInput (t : String) : Option (Int × Int) :=
  match pySplit t ':' with
  | [hs, ms] =>
    match pyToInt hs, pyToInt ms with
    | some h, some m =>
      if (0 ≤ h ∧ h ≤ 23) ∧ (0 ≤ m ∧ m ≤ 59) then some (h, m) else none
    | _, _ => none
  | _ => none

/-- The registered callback handlers, one constructor per
`@self.router.callback_query(...)` registration; the two `startswith`
handlers carry the string extracted by the handler
(`data.replace(pattern, "")`). -/
inductive CbKind where
  | serverStatus
  | serverInfo
  | serverLogs
  | serviceStatus
  | serverControl
  | whitelistMenu
  | showWhitelist
  | backToMain
  | startServer
  | stopServer
  | restartServer
  | saveWorld
  | weatherClear
  | weatherRain
  | weatherThunder
  | timeDay
  | timeNight
  | listPlayers
  | addPlayer
  | removePlayer
  | removePlayerName (pname : String)
  | refreshWhitelist
  | createBackup
  | sendMessage
  | backupSettings
  | toggleAutoBackup
  | setBackupInterval
  | intervalSet (iv : String)
  | setBackupTime
  | setBackupCount
deriving DecidableEq, Repr

/-- aiogram routing of a callback query: the first registered filter that
matches the data wins (registration order of the source), `none` when no
handler matches. -/
def routeCb (data : String) : Option CbKind :=
  if data = "server_status" then some .serverStatus
  else if data = "server_info" then some .serverInfo
  else if data = "server_logs" then some .serverLogs
  else if data = "service_status" then some .serviceStatus
  else if data = "server_control" then some .serverControl
  else if data = "whitelist_menu" then some .whitelistMenu
  else if data = "show_whitelist" then some .showWhitelist
  else if data = "back_to_main" then some .backToMain
  else if data = "start_server" then some .startServer
  else if data = "stop_server" then some .stopServer
  else if data = "restart_server" then some .restartServer
  else if data = "save_world" then some .saveWorld
  else if data = "weather_clear" then some .weatherClear
  else if data = "weather_rain" then some .weatherRain
  else if data = "weather_thunder" then some .weatherThunder
  else if data = "time_day" then some .timeDay
  else if data = "time_night" then some .timeNight
  else if data = "list_players" then some .listPlayers
  else if data = "add_player" then some .addPlayer
  else if data = "remove_player" then some .removePlayer
  else if "remove_player_".data.isPrefixOf data.data then
    some (.removePlayerName (data.replace "remove_player_" ""))
  else if data = "refresh_whitelist" then some .refreshWhitelist
  else if data = "create_backup" then some .createBackup
  else if data = "send_message" then some .sendMessage
  else if data = "backup_settings" then some .backupSettings
  else if data = "toggle_auto_backup" then some .toggleAutoBackup
  else if data = "set_backup_interval" then some .setBackupInterval
  else if "interval_".data.isPrefixOf data.data then
    some (.intervalSet (data.replace "interval_" ""))
  else if data = "set_backup_time" then some .setBackupTime
  else if data = "set_backup_count" then some .setBackupCount
  else none

/-- Whether any registered callback handler matches the data. -/
def cbMatched (data : String) : Bool :=
  (routeCb data).isSome

/-- The authorised bodies of the callback handlers.  Every handler in the
source begins with the same `is_admin` guard; it is hoisted into
`dispatchCb` below since guard and rejection are identical. -/
def runCb (env : Env) (bot : BotState) : CbKind → HandlerOutcome
  | .serverStatus =>
    { replies := [env.statusText], effects := [.sysquery "is-active"], state' := bot }
  | .serverInfo =>
    { replies := [env.infoText], effects := [.sysquery "info"], state' := bot }
  | .serverLogs =>
    { replies := [env.logsText], effects := [.sysquery "logs"], state' := bot }
  | .serviceStatus =>
    { replies := [env.serviceStatusText], effects := [.sysquery "status"], state' := bot }
  | .serverControl =>
    { replies := ["⚙️ Управление сервером"], effects := [], state' := bot }
  | .whitelistMenu =>
    { replies := ["👥 Управление белым списком"], effects := [], state' := bot }
  | .showWhitelist =>
    { replies := [showWhitelistText bot.whitelist], effects := [], state' := bot }
  | .backToMain =>
    { replies := ["🤖 Главное меню"], effects := [], state' := bot }
  | .startServer =>
    { replies := ["✅ Сервер запускается...", env.statusText],
      effects := [.systemctl "start"], state' := bot }
  | .stopServer =>
    { replies := ["⏹️ Сервер остановлен", env.statusText],
      effects := [.serverCommand "say ⚠️ Сервер останавливается через 10 секунд!",
                  .systemctl "stop"],
      state' := bot }
  | .restartServer =>
    { replies := ["🔄 Сервер перезагружается...", env.statusText],
      effects := [.serverCommand "say ⚠️ Сервер перезагружается через 10 секунд!",
                  .systemctl "restart"],
      state' := bot }
  | .saveWorld =>
    { replies := ["💾 Команда сохранения отправлена"],
      effects := [.serverCommand "save-all"], state' := bot }
  | .weatherClear =>
    { replies := ["☀️ Команда установки ясной погоды отправлена"],
      effects := [.serverCommand "weather clear"], state' := bot }
  | .weatherRain =>
    { replies := ["🌧️ Команда установки дождя отправлена"],
      effects := [.serverCommand "weather rain"], state' := bot }
  | .weatherThunder =>
    { replies := ["⛈️ Команда установки грозы отправлена"],
      effects := [.serverCommand "weather thunder"], state' := bot }
  | .timeDay =>
    { replies := ["🕐 Команда установки дня отправлена"],
      effects := [.serverCommand "time set day"], state' := bot }
  | .timeNight =>
    { replies := ["🌙 Команда установки ночи отправлена"],
      effects := [.serverCommand "time set night"], state' := bot }
  | .listPlayers =>
    { replies := ["📋 Команда списка игроков отправлена, проверьте логи"],
      effects := [.serverCommand "list"], state' := bot }
  | .addPlayer =>
    { replies := ["Введите никнейм игрока для добавления в белый список:"],
      effects := [], state' := bot }
  | .removePlayer =>
    if bot.whitelist.isEmpty then
      { replies := ["Белый список пуст"], effects := [], state' := bot }
    else
      { replies := ["Выберите игрока для удаления:"], effects := [], state' := bot }
  | .removePlayerName pname =>
    let newWl := bot.whitelist.filter fun p => p.name != pname
    if newWl.length = bot.whitelist.length then
      { replies := ["Игрок не найден в белом списке"], effects := [], state' := bot }
    else if env.whitelistSaveOk then
      { replies := ["✅ Игрок удален из белого списка"],
        effects := [.saveWhitelist, .serverCommand ("whitelist remove " ++ pname),
                    .serverCommand "whitelist reload"],
        state' := { bot with whitelist := newWl } }
    else
      { replies := ["❌ Ошибка при удалении игрока"], effects := [], state' := bot }
  | .refreshWhitelist =>
    { replies := ["🔄 Белый список обновлен на сервере"],
      effects := [.serverCommand "whitelist reload"], state' := bot }
  | .createBackup =>
    manualBackup env bot
  | .sendMessage =>
    { replies := ["Введите сообщение для отправки в чат сервера:"],
      effects := [], state' := bot }
  | .backupSettings =>
    { replies := [settingsText bot.settings], effects := [], state' := bot }
  | .toggleAutoBackup =>
    let newS := { bot.settings with enabled := some (!(bot.settings.enabled.getD false)) }
    { replies := ["✅ Автобэкапы переключены", settingsText newS],
      effects := [.saveSettings],
      state' := { bot with settings := newS, backupJob := setup_auto_backup newS } }
  | .setBackupInterval =>
    { replies := ["⏰ Выберите интервал для автобэкапов:"], effects := [], state' := bot }
  | .intervalSet iv =>
    let newS := { bot.settings with interval := some iv }
    { replies := ["✅ Интервал установлен", settingsText newS],
      effects := [.saveSettings],
      state' := { bot with settings := newS, backupJob := setup_auto_backup newS } }
  | .setBackupTime =>
    { replies := ["🕐 Введите время для бэкапов в формате ЧЧ:ММ"],
      effects := [], state' := bot }
  | .setBackupCount =>
    { replies := ["📦 Введите количество бэкапов для хранения"],
      effects := [], state' := bot }

/-- Routing of a callback query: an unmatched data string reaches no handler
at all (no admin check, no reply); a matched one runs the shared admin guard
and then the handler body. -/
def dispatchCb (env : Env) (bot : BotState) (uid : Int) (data : String) : HandlerOutcome :=
  match routeCb data with
  | none => { replies := [], effects := [], state' := bot }
  | some k =>
    if !(is_admin bot uid) then
      { replies := ["⛔ Нет доступа"], effects := [], state' := bot }
    else runCb env bot k

/-- The authorised branches of `handle_text`, one per detected reply
context.  `content` is the already-stripped message text. -/
def handleText (env : Env) (bot : BotState) (content : String) : ReplyCtx → HandlerOutcome
  | .addPlayer =>
    if bot.whitelist.any fun p => p.name == content then
      { replies := ["❌ Игрок уже есть в белом списке"], effects := [], state' := bot }
    else if env.whitelistSaveOk then
      let r := execute_server_command env ("whitelist add " ++ content)
      { replies := [if r.1 then "✅ Игрок добавлен в белый список"
                    else "⚠️ Игрок добавлен в файл, но ошибка на сервере"],
        effects := [.saveWhitelist, .serverCommand ("whitelist add " ++ content),
                    .serverCommand "whitelist reload"],
        state' := { bot with whitelist := bot.whitelist ++ [⟨"", content⟩] } }
    else
      { replies := ["❌ Ошибка при добавлении игрока"], effects := [], state' := bot }
  | .sendMsg =>
    let r := execute_server_command env ("say " ++ content)
    { replies := [if r.1 then "✅ Сообщение отправлено" else "❌ Ошибка: " ++ r.2],
      effects := [.serverCommand ("say " ++ content)], state' := bot }
  | .setTime =>
    match parseTimeInput content with
    | some (h, m) =>
      let newS := { bot.settings with time := some (fmtTime h m) }
      { replies := ["✅ Время бэкапов установлено: " ++ fmtTime h m],
        effects := [.saveSettings],
        state' := { bot with settings := newS, backupJob := setup_auto_backup newS } }
    | none =>
      { replies := ["❌ Неверный формат времени!"], effects := [], state' := bot }
  | .setCount =>
    match pyToInt content with
    | some c =>
      if c < 1 ∨ c > 50 then
        { replies := ["❌ Неверное значение!"], effects := [], state' := bot }
      else
        { replies := ["✅ Количество хранимых бэкапов установлено"],
          effects := [.saveSettings],
          state' := { bot with settings := { bot.settings with keep_count := some c } } }
    | none =>
      { replies := ["❌ Неверное значение!"], effects := [], state' := bot }
  | .plain =>
    { replies := ["🤖 Главное меню"], effects := [], state' := bot }

/-- The full dispatch layer: every message handler begins with the `is_admin`
guard and its own rejection text (`/start` has a distinct wording, and
`handle_text` returns silently); callback routing is in `dispatchCb`. -/
def handleRequest (env : Env) (bot : BotState) (uid : Int) : Request → HandlerOutcome
  | .start =>
    if !(is_admin bot uid) then
      { replies := ["⛔ У вас нет доступа к этому боту."], effects := [], state' := bot }
    else { replies := [welcomeText], effects := [], state' := bot }
  | .status =>
    if !(is_admin bot uid) then
      { replies := ["⛔ У вас нет доступа к этой команде."], effects := [], state' := bot }
    else { replies := [env.statusText], effects := [.sysquery "is-active"], state' := bot }
  | .info =>
    if !(is_admin bot uid) then
      { replies := ["⛔ У вас нет доступа к этой команде."], effects := [], state' := bot }
    else { replies := [env.infoText], effects := [.sysquery "info"], state' := bot }
  | .logs _n =>
    if !(is_admin bot uid) then
      { replies := ["⛔ У вас нет доступа к этой команде."], effects := [], state' := bot }
    else { replies := [env.logsText], effects := [.sysquery "logs"], state' := bot }
  | .whitelistCmd =>
    if !(is_admin bot uid) then
      { replies := ["⛔ У вас нет доступа к этой команде."], effects := [], state' := bot }
    else { replies := ["👥 Управление белым списком"], effects := [], state' := bot }
  | .backupCmd =>
    if !(is_admin bot uid) then
      { replies := ["⛔ У вас нет доступа к этой команде."], effects := [], state' := bot }
    else manualBackup env bot
  | .commandCmd args =>
    if !(is_admin bot uid) then
      { replies := ["⛔ У вас нет доступа к этой команде."], effects := [], state' := bot }
    else
      match args with
      | none =>
        { replies := ["Использование: /command <команда>"], effects := [], state' := bot }
      | some a =>
        let r := execute_server_command env a
        { replies := [if r.1 then "✅ Команда отправлена" else "❌ Ошибка: " ++ r.2],
          effects := [.serverCommand a], state' := bot }
  | .messageCmd args =>
    if !(is_admin bot uid) then
      { replies := ["⛔ У вас нет доступа к этой команде."], effects := [], state' := bot }
    else
      match args with
      | none =>
        { replies := ["Использование: /message <текст>"], effects := [], state' := bot }
      | some a =>
        let r := execute_server_command env ("say " ++ a)
        { replies := [if r.1 then "✅ Сообщение отправлено" else "❌ Ошибка: " ++ r.2],
          effects := [.serverCommand ("say " ++ a)], state' := bot }
  | .helpCmd =>
    if !(is_admin bot uid) then
      { replies := ["⛔ У вас нет доступа к этой команде."], effects := [], state' := bot }
    else { replies := [helpText], effects := [], state' := bot }
  | .cb data => dispatchCb env bot uid data
  | .text content ctx =>
    if !(is_admin bot uid) then
      { replies := [], effects := [], state' := bot }
    else handleText env bot content ctx

/-- The rejection notice (if any) the source sends an unauthorised requester,
per request kind: commands and matched callbacks answer with an access-denied
text, unmatched callbacks reach no handler, and `handle_text` returns without
replying. -/
def rejectionNotice : Request → List String
  | .start => ["⛔ У вас нет доступа к этому боту."]
  | .cb d =>
    match routeCb d with
    | some _ => ["⛔ Нет доступа"]
    | none => []
  | .text _ _ => []
  | _ => ["⛔ У вас нет доступа к этой команде."]

/-- A concrete environment where every collaborator behaves. -/
def env0 : Env :=
  { statusText := "🟢 Сервер запущен", infoText := "info", logsText := "logs",
    serviceStatusText := "svc", rconAvailable := false, rconResponse := "",
    commandFileWriteOk := true, worldExists := true, tarWriteOk := true,
    timestamp := "20240101_000000", now := 10, uploadOk := true,
    deleteFails := fun _ => false, whitelistSaveOk := true }

/-- A concrete bot state with admin id 1 and default settings. -/
def bot0 : BotState :=
  { adminId := 1, settings := defaultSettings, backupJob := none,
    disk := [], whitelist := [] }

/-- Three artifacts with strictly increasing mtimes. -/
def files3 : List FileEntry :=
  [⟨"world_backup_20240101_010000.tar.gz", 1⟩,
   ⟨"world_backup_20240101_020000.tar.gz", 2⟩,
   ⟨"world_backup_20240101_030000.tar.gz", 3⟩]

/-- Settings keeping two backups. -/
def st3 : BackupSettings :=
  { enabled := some true, interval := some "daily",
    time := some "03:00", keep_count := some 2 }

/-- A bot with `keep_count = 1` and two artifacts already on disk. -/
def botC4 : BotState :=
  { adminId := 1,
    settings := { enabled := some false, interval := some "daily",
                  time := some "03:00", keep_count := some 1 },
    backupJob := none,
    disk := [⟨"world_backup_20240101_010000.tar.gz", 1⟩,
             ⟨"world_backup_20240101_020000.tar.gz", 2⟩],
    whitelist := [] }

/-- A bot with an armed daily job whose stored time string has no colon, so
re-arming raises inside `setup_auto_backup`. -/
def botC5 : BotState :=
  { adminId := 1,
    settings := { enabled := some true, interval := some "daily",
                  time := some "0300", keep_count := some 7 },
    backupJob := some ⟨"0 3 * * *"⟩,
    disk := [], whitelist := [] }

/-- An unlink stub that raises exactly on the second-newest artifact. -/
def failB : String → Bool := fun s => s == "world_backup_20240101_020000.tar.gz"

/-- Four artifacts with strictly increasing mtimes. -/
def filesC6 : List FileEntry :=
  [⟨"world_backup_20240101_010000.tar.gz", 1⟩,
   ⟨"world_backup_20240101_020000.tar.gz", 2⟩,
   ⟨"world_backup_20240101_030000.tar.gz", 3⟩,
   ⟨"world_backup_20240101_040000.tar.gz", 4⟩]

/-- Settings keeping a single backup. -/
def stC6 : BackupSettings :=
  { enabled := some true, interval := some "daily",
    time := some "03:00", keep_count := some 1 }

/-- An environment whose tar write fails midway. -/
def envC7 : Env := { env0 with tarWriteOk := false }

/-- An environment where the world directory is missing. -/
def envC8 : Env := { env0 with worldExists := false }

/-- Durable-settings file contents with an out-of-range keep count. -/
def loadedBad : BackupSettings :=
  { enabled := some true, interval := some "daily",
    time := some "03:00", keep_count := some 0 }

/-- A bot whose durable file supplied an unrecognised interval string while
backups are enabled and a job is armed. -/
def botC10 : BotState :=
  { adminId := 1,
    settings := { enabled := some true, interval := some "sometimes",
                  time := some "03:00", keep_count := some 7 },
    backupJob := some ⟨"0 3 * * *"⟩,
    disk := [], whitelist := [] }

/-! ### Helper lemmas about the retention pass -/

theorem insertDesc_perm (x : FileEntry) (l : List FileEntry) :
    List.Perm (insertDesc x l) (x :: l) := by
  induction l with
  | nil => exact List.Perm.refl _
  | cons y ys ih =>
    simp only [insertDesc]
    split
    · exact (ih.cons y).trans (List.Perm.swap x y ys)
    · exact List.Perm.refl _

theorem sortDesc_perm (l : List FileEntry) : List.Perm (sortDesc l) l := by
  induction l with
  | nil => exact List.Perm.refl _
  | cons x xs ih => exact (insertDesc_perm x (sortDesc xs)).trans (ih.cons x)

theorem insertDesc_of_forall_lt (x : FileEntry) (l : List FileEntry)
    (h : ∀ y ∈ l, x.mtime < y.mtime) : insertDesc x l = l ++ [x] := by
  induction l with
  | nil => rfl
  | cons y ys ih =>
    have hy : x.mtime < y.mtime := h y (List.mem_cons_self y ys)
    simp only [insertDesc, if_pos hy, List.cons_append]
    rw [ih fun z hz => h z (List.mem_cons_of_mem y hz)]

theorem sortDesc_of_pairwise_lt (l : List FileEntry)
    (h : l.Pairwise fun a b => a.mtime < b.mtime) : sortDesc l = l.reverse := by
  induction l with
  | nil => rfl
  | cons x xs ih =>
    rw [List.pairwise_cons] at h
    obtain ⟨hx, hxs⟩ := h
    simp only [sortDesc, ih hxs, List.reverse_cons]
    exact insertDesc_of_forall_lt x xs.reverse fun y hy => hx y (List.mem_reverse.mp hy)

theorem deleteRun_ok (l : List FileEntry) :
    deleteRun (fun _ => false) l = (l.map FileEntry.name, false) := by
  induction l with
  | nil => rfl
  | cons f fs ih => simp [deleteRun, ih]

theorem deleteRun_spec (fail : String → Bool) (l : List FileEntry) :
    deleteRun fail l =
      ((l.takeWhile fun f => !(fail f.name)).map FileEntry.name,
       l.any fun f => fail f.name) := by
  induction l with
  | nil => rfl
  | cons f fs ih =>
    by_cases hf : fail f.name
    · simp [deleteRun, hf, List.takeWhile_cons]
    · simp [deleteRun, hf, ih, List.takeWhile_cons]

theorem pyDropInt_natCast (l : List α) (k : Nat) : pyDropInt l (k : Int) = l.drop k := by
  simp [pyDropInt, Int.ofNat_nonneg, Int.toNat_ofNat]

theorem cleanup_big (fail : String → Bool) (disk : List FileEntry)
    (st : BackupSettings) (k : Nat) (hst : st.keep_count = some (k : Int))
    (hlen : k < (sortDesc (disk.filter fun f => isArtifactName f.name)).length) :
    cleanup_old_backups fail disk st =
      deleteRun fail ((sortDesc (disk.filter fun f => isArtifactName f.name)).drop k) := by
  unfold cleanup_old_backups
  rw [hst]
  simp only [Option.getD_some]
  rw [if_pos (by exact_mod_cast hlen), pyDropInt_natCast]

theorem cleanup_small (fail : String → Bool) (disk : List FileEntry)
    (st : BackupSettings) (k : Nat) (hst : st.keep_count = some (k : Int))
    (hlen : (sortDesc (disk.filter fun f => isArtifactName f.name)).length ≤ k) :
    cleanup_old_backups fail disk st = ([], false) := by
  unfold cleanup_old_backups
  rw [hst]
  simp only [Option.getD_some]
  rw [if_neg]
  intro hcontra
  exact absurd hlen (by exact_mod_cast (not_le_of_lt (by exact_mod_cast hcontra)))

theorem remainingAfter_nil (disk : List FileEntry) : remainingAfter disk [] = disk := by
  simp [remainingAfter]

theorem nodup_names_split (l : List FileEntry) (j : Nat)
    (h : (l.map FileEntry.name).Nodup) :
    (∀ f ∈ l.take j, f.name ∉ (l.drop j).map FileEntry.name) ∧
    (∀ f ∈ l.drop j, f.name ∉ (l.take j).map FileEntry.name) := by
  have h2 : (((l.take j).map FileEntry.name) ++ ((l.drop j).map FileEntry.name)).Nodup := by
    rw [← List.map_append, List.take_append_drop]
    exact h
  rw [List.nodup_append] at h2
  obtain ⟨-, -, hd⟩ := h2
  exact ⟨fun f hf hmem => hd (List.mem_map_of_mem _ hf) hmem,
         fun f hf hmem => hd hmem (List.mem_map_of_mem _ hf)⟩

theorem remainingAfter_eq_drop (l : List FileEntry) (j : Nat) (del : List String)
    (h1 : ∀ f ∈ l.take j, f.name ∈ del)
    (h2 : ∀ f ∈ l.drop j, f.name ∉ del) :
    remainingAfter l del = l.drop j := by
  unfold remainingAfter
  calc l.filter (fun f => decide (f.name ∉ del))
      = (l.take j ++ l.drop j).filter (fun f => decide (f.name ∉ del)) := by
        rw [List.take_append_drop]
    _ = (l.take j).filter (fun f => decide (f.name ∉ del))
          ++ (l.drop j).filter (fun f => decide (f.name ∉ del)) := List.filter_append _ _
    _ = [] ++ l.drop j := by
        rw [List.filter_eq_nil_iff.mpr fun a ha => by simp [h1 a ha],
            List.filter_eq_self.mpr fun a ha => by simp [h2 a ha]]
    _ = l.drop j := List.nil_append _

theorem names_nodup_of_disk (disk : List FileEntry)
    (hnd : (disk.map FileEntry.name).Nodup) :
    ((sortDesc (disk.filter fun f => isArtifactName f.name)).map FileEntry.name).Nodup := by
  have hsub : ((disk.filter fun f => isArtifactName f.name).map FileEntry.name).Sublist
      (disk.map FileEntry.name) :=
    List.Sublist.map FileEntry.name (List.filter_sublist disk)
  have hA : ((disk.filter fun f => isArtifactName f.name).map FileEntry.name).Nodup :=
    hsub.nodup hnd
  exact ((sortDesc_perm _).map FileEntry.name).nodup_iff.mpr hA

theorem cleanup_count (disk : List FileEntry) (st : BackupSettings) (k : Nat)
    (hst : st.keep_count = some (k : Int))
    (hnd : (disk.map FileEntry.name).Nodup) :
    countArtifacts
      (remainingAfter disk (cleanup_old_backups (fun _ => false) disk st).1)
      = min (countArtifacts disk) k := by
  set A := disk.filter fun f => isArtifactName f.name with hA
  set s := sortDesc A with hs
  have hperm : List.Perm s A := sortDesc_perm A
  have hm : s.length = countArtifacts disk := by
    rw [hperm.length_eq]; rfl
  by_cases hbig : k < s.length
  · -- the retention pass deletes everything past index k
    rw [cleanup_big (fun _ => false) disk st k hst hbig, deleteRun_ok]
    set del := (s.drop k).map FileEntry.name with hdel
    have hnames : (s.map FileEntry.name).Nodup := names_nodup_of_disk disk hnd
    have hsplit := nodup_names_split s k hnames
    have hcount : countArtifacts (remainingAfter disk del)
        = ((s.filter fun f => decide (f.name ∉ del)).length) := by
      unfold countArtifacts remainingAfter
      rw [List.filter_filter]
      have h1 : (disk.filter fun a => isArtifactName a.name && decide (a.name ∉ del))
          = (A.filter fun f => decide (f.name ∉ del)) := by
        rw [hA, List.filter_filter]
        apply List.filter_congr
        intro a _
        exact Bool.and_comm _ _
      rw [h1]
      exact ((hperm.filter fun f => decide (f.name ∉ del)).length_eq).symm
    rw [hcount]
    have hsfilter : s.filter (fun f => decide (f.name ∉ del)) = s.take k := by
      calc s.filter (fun f => decide (f.name ∉ del))
          = (s.take k ++ s.drop k).filter (fun f => decide (f.name ∉ del)) := by
            rw [List.take_append_drop]
        _ = (s.take k).filter (fun f => decide (f.name ∉ del))
              ++ (s.drop k).filter (fun f => decide (f.name ∉ del)) := List.filter_append _ _
        _ = s.take k ++ [] := by
            rw [List.filter_eq_self.mpr fun a ha => by simp [hsplit.1 a ha],
                List.filter_eq_nil_iff.mpr fun a ha => by
                  simp [List.mem_map_of_mem FileEntry.name ha]]
        _ = s.take k := List.append_nil _
    rw [hsfilter, List.length_take, ← hm]
    rw [Nat.min_eq_left (le_of_lt hbig), Nat.min_eq_right (le_of_lt hbig)]
  · push_neg at hbig
    rw [cleanup_small (fun _ => false) disk st k hst hbig]
    simp only [remainingAfter_nil]
    have hle : countArtifacts disk ≤ k := by rw [← hm]; exact hbig
    exact (Nat.min_eq_left hle).symm

/-! ### Claim theorems -/

/-- C2: the authorization predicate returns true if and only if the requester
identity equals the configured admin identity; it is a total boolean function
of the id, so it is false for every other integer (including 0 and negative
values) and never raises. -/
theorem is_admin_iff (bot : BotState) (user_id : Int) :
    is_admin bot user_id = true ↔ user_id = bot.adminId := by
  simp [is_admin]

/-- C5 counterexample: with a daily schedule armed and a stored time string
lacking a colon, reconfiguration fails to arm a new job, yet the previously
armed job does not remain in effect — `backup_job` ends up `None` because the
old job was stopped before the new one was computed. -/
theorem schedule_failure_drops_previous_job :
    botC5.backupJob = some ⟨"0 3 * * *"⟩ ∧
    botC5.settings.enabled.getD false = true ∧
    (apply_setup_auto_backup botC5).backupJob = none := by
  refine ⟨rfl, rfl, ?_⟩
  decide

/-- C5 amended: a failure while computing or arming the new schedule is
contained in that reconfiguration call (the exception is caught and logged),
but the previously armed job has already been cancelled, so the system is
left with backups enabled and no job armed; the settings themselves are
untouched. -/
theorem schedule_failure_contained (bot : BotState)
    (he : bot.settings.enabled.getD false = true)
    (hf : armJob (bot.settings.interval.getD "daily")
            (bot.settings.time.getD "03:00") = none) :
    (apply_setup_auto_backup bot).backupJob = none ∧
    (apply_setup_auto_backup bot).settings = bot.settings := by
  constructor
  · show setup_auto_backup bot.settings = none
    unfold setup_auto_backup
    simp [he, hf]
  · rfl

theorem schedule_failure_contained_witness :
    botC5.settings.enabled.getD false = true ∧
    ((apply_setup_auto_backup botC5).backupJob = none ∧
     (apply_setup_auto_backup botC5).settings = botC5.settings) :=
  ⟨by decide, schedule_failure_contained botC5 (by decide) (by decide)⟩

/-- C10: reconfiguring with backups enabled but an interval outside the five
recognised strings cancels the previously armed job and arms nothing,
silently disabling automatic backups. -/
theorem unrecognized_interval_silent_disable (bot : BotState) (j : CronJob)
    (hj : bot.backupJob = some j)
    (he : bot.settings.enabled.getD false = true)
    (h15 : bot.settings.interval.getD "daily" ≠ "15min")
    (h30 : bot.settings.interval.getD "daily" ≠ "30min")
    (hh : bot.settings.interval.getD "daily" ≠ "hourly")
    (hd : bot.settings.interval.getD "daily" ≠ "daily")
    (hw : bot.settings.interval.getD "daily" ≠ "weekly") :
    (apply_setup_auto_backup bot).backupJob = none ∧ bot.backupJob ≠ none := by
  constructor
  · show setup_auto_backup bot.settings = none
    unfold setup_auto_backup armJob
    simp [he, h15, h30, hh, hd, hw]
  · rw [hj]
    exact fun h => Option.noConfusion h

theorem unrecognized_interval_silent_disable_witness :
    botC10.backupJob = some ⟨"0 3 * * *"⟩ ∧
    ((apply_setup_auto_backup botC10).backupJob = none ∧ botC10.backupJob ≠ none) :=
  ⟨rfl, unrecognized_interval_silent_disable botC10 ⟨"0 3 * * *"⟩ rfl (by decide)
    (by decide) (by decide) (by decide) (by decide) (by decide)⟩

/-- C7 counterexample: a tar-write failure surfaces as a failed result, but a
partial output file is left in the backup directory under the valid artifact
name — the archive is not written to a temporary name, nor deleted on
failure. -/
theorem failed_archive_leaves_partial_file :
    (create_backup envC7 []).1.1 = false ∧
    (create_backup envC7 []).2 = [⟨"world_backup_20240101_000000.tar.gz", 10⟩] ∧
    isArtifactName "world_backup_20240101_000000.tar.gz" = true := by
  decide

/-- C7 amended: an I/O failure during archive writing surfaces as a failed
outcome (no artifact path reported), but because the archive is opened
directly at its final artifact name, the partial output file remains in the
backup directory under that name. -/
theorem archive_failure_surfaces_but_partial_remains (env : Env)
    (disk : List FileEntry)
    (hw : env.worldExists = true) (ht : env.tarWriteOk = false) :
    (create_backup env disk).1.1 = false ∧
    (create_backup env disk).1.2.2 = none ∧
    (create_backup env disk).2
      = disk ++ [⟨"world_backup_" ++ env.timestamp ++ ".tar.gz", env.now⟩] := by
  simp [create_backup, hw, ht]

theorem archive_failure_surfaces_but_partial_remains_witness :
    envC7.worldExists = true ∧ envC7.tarWriteOk = false ∧
    ((create_backup envC7 []).1.1 = false ∧
     (create_backup envC7 []).1.2.2 = none ∧
     (create_backup envC7 []).2
       = [] ++ [⟨"world_backup_" ++ envC7.timestamp ++ ".tar.gz", envC7.now⟩]) :=
  ⟨rfl, rfl, archive_failure_surfaces_but_partial_remains envC7 [] rfl rfl⟩

/-- C8: whenever the archive build fails (in particular when the world
directory is missing), the scheduled pipeline run short-circuits — the
retention pass and the upload are not invoked and the outcome is a failure;
the manual backup path likewise performs no upload effect. -/
theorem archive_failure_short_circuits (env : Env) (bot : BotState)
    (hfail : (create_backup env bot.disk).1.1 = false) :
    ((auto_backup_task env bot).1).success = false ∧
    ((auto_backup_task env bot).1).retentionInvoked = false ∧
    ((auto_backup_task env bot).1).uploadInvoked = false ∧
    (manualBackup env bot).effects = [] := by
  rcases hcb : create_backup env bot.disk with ⟨⟨ok, msg, pathOpt⟩, disk1⟩
  rw [hcb] at hfail
  simp only at hfail
  subst hfail
  simp [auto_backup_task, manualBackup, hcb]

theorem archive_failure_short_circuits_witness :
    (create_backup envC8 bot0.disk).1.1 = false ∧
    (((auto_backup_task envC8 bot0).1).success = false ∧
     ((auto_backup_task envC8 bot0).1).retentionInvoked = false ∧
     ((auto_backup_task envC8 bot0).1).uploadInvoked = false ∧
     (manualBackup envC8 bot0).effects = []) :=
  ⟨by decide, archive_failure_short_circuits envC8 bot0 (by decide)⟩

/-- C6 counterexample: with `keep_count = 1`, four artifacts and an `unlink`
that raises on the second-newest artifact, the retention pass deletes only
the artifact before the failing one and then aborts — the oldest artifact is
never attempted even though its deletion would succeed, and the Python
function returns `None` rather than a list of deleted paths. -/
theorem retention_failure_aborts_pass :
    cleanup_old_backups failB filesC6 stC6
      = (["world_backup_20240101_030000.tar.gz"], true) ∧
    failB "world_backup_20240101_010000.tar.gz" = false := by
  decide

/-- C6 amended: a failing deletion never fails the overall backup operation
(the exception is caught and logged and the scheduled pipeline still reports
success), but the pass stops at the first failed deletion — the deleted set
is exactly the prefix of the excess list before the first failure, the
remaining excess artifacts are not attempted, and no list of deleted paths is
returned to the caller. -/
theorem retention_failure_behavior (env : Env) (bot : BotState)
    (l : List FileEntry) (fail : String → Bool)
    (hok : env.worldExists = true) (htar : env.tarWriteOk = true) :
    ((auto_backup_task env bot).1).success = true ∧
    deleteRun fail l
      = ((l.takeWhile fun f => !(fail f.name)).map FileEntry.name,
         l.any fun f => fail f.name) := by
  constructor
  · unfold auto_backup_task
    simp [create_backup, hok, htar]
  · exact deleteRun_spec fail l

theorem retention_failure_behavior_witness :
    env0.worldExists = true ∧
    (((auto_backup_task env0 bot0).1).success = true ∧
     deleteRun failB filesC6
       = ((filesC6.takeWhile fun f => !(failB f.name)).map FileEntry.name,
          filesC6.any fun f => failB f.name)) :=
  ⟨rfl, retention_failure_behavior env0 bot0 filesC6 failB rfl rfl⟩

/-- C1 counterexample: a free-text message from a non-admin user is rejected
silently — no state change and no effect, but also no rejection notice is
sent, contrary to the claim that every rejected requester receives one. -/
theorem text_handler_silent_rejection :
    (2 : Int) ≠ bot0.adminId ∧
    (handleRequest env0 bot0 2 (Request.text "hello" ReplyCtx.plain)).replies = [] ∧
    (handleRequest env0 bot0 2 (Request.text "hello" ReplyCtx.plain)).state' = bot0 := by
  decide

/-- C1 amended: every handler checks the admin identity before any other
action and short-circuits for a non-admin requester with no state mutation,
no side effect and no information disclosure; commands and matched callbacks
answer with a fixed rejection notice, while free-text messages (and callbacks
matching no handler) are dropped silently. -/
theorem non_admin_short_circuit (env : Env) (bot : BotState) (uid : Int)
    (req : Request) (h : uid ≠ bot.adminId) :
    (handleRequest env bot uid req).state' = bot ∧
    (handleRequest env bot uid req).effects = [] ∧
    (handleRequest env bot uid req).replies = rejectionNotice req := by
  have hb : is_admin bot uid = false := by
    simp only [is_admin, beq_eq_false_iff_ne, ne_eq]
    exact h
  cases req with
  | cb data =>
    simp only [handleRequest, dispatchCb, rejectionNotice, hb,
      Bool.not_false, if_true]
    rcases hroute : routeCb data with _ | k <;> simp [hroute]
  | _ => simp [handleRequest, rejectionNotice, hb]

theorem non_admin_short_circuit_witness :
    (999 : Int) ≠ bot0.adminId ∧
    ((handleRequest env0 bot0 999 Request.status).state' = bot0 ∧
     (handleRequest env0 bot0 999 Request.status).effects = [] ∧
     (handleRequest env0 bot0 999 Request.status).replies
       = rejectionNotice Request.status) :=
  ⟨by decide, non_admin_short_circuit env0 bot0 999 Request.status (by decide)⟩

/-! ### Consequences of `cleanup_old_backups` used by C3 and C4 -/

theorem cleanup_big_fst (disk : List FileEntry) (st : BackupSettings) (k : Nat)
    (hst : st.keep_count = some (k : Int))
    (hlen : k < (sortDesc (disk.filter fun f => isArtifactName f.name)).length) :
    (cleanup_old_backups (fun _ => false) disk st).1
      = ((sortDesc (disk.filter fun f => isArtifactName f.name)).drop k).map
          FileEntry.name := by
  rw [cleanup_big (fun _ => false) disk st k hst hlen, deleteRun_ok]

/-- C3: for settings keeping `k` backups and `n` artifact files with strictly
increasing mtimes, one retention pass leaves behind exactly the last `k` of
them (the `k` newest), i.e. `min n k` artifacts survive and only the oldest
are deleted. -/
theorem retention_pass_exact (files : List FileEntry) (st : BackupSettings)
    (k : Nat) (hst : st.keep_count = some (k : Int))
    (hasc : files.Pairwise fun a b => a.mtime < b.mtime)
    (hart : ∀ f ∈ files, isArtifactName f.name = true)
    (hnd : (files.map FileEntry.name).Nodup) :
    remainingAfter files (cleanup_old_backups (fun _ => false) files st).1
      = files.drop (files.length - k) ∧
    (remainingAfter files (cleanup_old_backups (fun _ => false) files st).1).length
      = min files.length k := by
  have hfilter : files.filter (fun f => isArtifactName f.name) = files :=
    List.filter_eq_self.mpr hart
  have hsort : sortDesc (files.filter fun f => isArtifactName f.name)
      = files.reverse := by
    rw [hfilter]
    exact sortDesc_of_pairwise_lt files hasc
  by_cases hbig : k < files.length
  · have hlen : k < (sortDesc (files.filter fun f => isArtifactName f.name)).length := by
      rw [hsort, List.length_reverse]
      exact hbig
    have hr : remainingAfter files (cleanup_old_backups (fun _ => false) files st).1
        = files.drop (files.length - k) := by
      rw [cleanup_big_fst files st k hst hlen, hsort, List.drop_reverse]
      apply remainingAfter_eq_drop
      · intro f hf
        rw [List.map_reverse, List.mem_reverse]
        exact List.mem_map_of_mem _ hf
      · intro f hf hin
        rw [List.map_reverse, List.mem_reverse] at hin
        exact (nodup_names_split files (files.length - k) hnd).2 f hf hin
    refine ⟨hr, ?_⟩
    rw [hr, List.length_drop]
    omega
  · push_neg at hbig
    have hlen : (sortDesc (files.filter fun f => isArtifactName f.name)).length ≤ k := by
      rw [hsort, List.length_reverse]
      exact hbig
    rw [cleanup_small (fun _ => false) files st k hst hlen, remainingAfter_nil]
    constructor
    · rw [Nat.sub_eq_zero_of_le hbig, List.drop_zero]
    · exact (Nat.min_eq_left hbig).symm

theorem retention_pass_exact_witness :
    (files3.Pairwise fun a b => a.mtime < b.mtime) ∧
    (remainingAfter files3 (cleanup_old_backups (fun _ => false) files3 st3).1
       = files3.drop (files3.length - 2) ∧
     (remainingAfter files3 (cleanup_old_backups (fun _ => false) files3 st3).1).length
       = min files3.length 2) :=
  ⟨by decide,
   retention_pass_exact files3 st3 2 (by decide) (by decide) (by decide) (by decide)⟩

/-- C4 counterexample: the manual backup path (the `/backup` command, and the
identical button handler) runs no retention pass, so with `keep_count = 1`
and two artifacts already on disk a successful manual backup leaves three
artifacts — more than `keep_count`. -/
theorem manual_backup_exceeds_keep_count :
    botC4.settings.keep_count = some 1 ∧
    countArtifacts ((handleRequest env0 botC4 1 Request.backupCmd).state'.disk) = 3 := by
  decide

theorem create_backup_ok (env : Env) (disk : List FileEntry)
    (hok : env.worldExists = true) (htar : env.tarWriteOk = true) :
    create_backup env disk
      = ((true,
          "Бэкап создан: " ++ ("world_backup_" ++ env.timestamp ++ ".tar.gz"),
          some ("world_backup_" ++ env.timestamp ++ ".tar.gz")),
         disk ++ [⟨"world_backup_" ++ env.timestamp ++ ".tar.gz", env.now⟩]) := by
  simp [create_backup, hok, htar]

/-- C4 amended: only the scheduled pipeline runs a retention pass after its
backup; after such a run with all deletions succeeding, the number of
artifacts on disk is at most `keep_count`.  The manual paths (command and
button) never invoke the Retention Manager, so they can leave more than
`keep_count` artifacts. -/
theorem scheduled_backup_retention_bound (env : Env) (bot : BotState) (k : Nat)
    (hk : bot.settings.keep_count = some (k : Int))
    (hfail : env.deleteFails = fun _ => false)
    (hok : env.worldExists = true) (htar : env.tarWriteOk = true)
    (hnd : (((create_backup env bot.disk).2).map FileEntry.name).Nodup) :
    countArtifacts ((auto_backup_task env bot).2).disk ≤ k := by
  have hdisk : (auto_backup_task env bot).2.disk
      = remainingAfter ((create_backup env bot.disk).2)
          (cleanup_old_backups (fun _ => false) ((create_backup env bot.disk).2)
            bot.settings).1 := by
    unfold auto_backup_task
    rw [create_backup_ok env bot.disk hok htar, hfail]
  rw [hdisk, cleanup_count ((create_backup env bot.disk).2) bot.settings k hk hnd]
  exact Nat.min_le_right _ _

theorem scheduled_backup_retention_bound_witness :
    env0.worldExists = true ∧
    countArtifacts ((auto_backup_task env0 botC4).2).disk ≤ 1 :=
  ⟨rfl,
   scheduled_backup_retention_bound env0 botC4 1 (by decide) rfl rfl rfl (by decide)⟩

/-! ### Settings-invariant lemmas for C9 -/

theorem parseTimeInput_bounds (t : String) (h m : Int)
    (hp : parseTimeInput t = some (h, m)) :
    0 ≤ h ∧ h ≤ 23 ∧ 0 ≤ m ∧ m ≤ 59 := by
  unfold parseTimeInput at hp
  repeat' split at hp
  all_goals simp_all

theorem validSettings_of_eq_fields (s1 s2 : BackupSettings)
    (hk : s2.keep_count = s1.keep_count) (ht : s2.time = s1.time)
    (h : validSettings s1) : validSettings s2 := by
  unfold validSettings at h ⊢
  rw [hk, ht]
  exact h

theorem manualBackup_settings (env : Env) (bot : BotState) :
    (manualBackup env bot).state'.settings = bot.settings := by
  unfold manualBackup
  rcases hcb : create_backup env bot.disk with ⟨⟨ok, msg, po⟩, disk1⟩
  cases ok <;> cases po <;> (try split_ifs) <;> rfl

theorem runCb_settings (env : Env) (bot : BotState) (k : CbKind) :
    (runCb env bot k).state'.settings.keep_count = bot.settings.keep_count ∧
    (runCb env bot k).state'.settings.time = bot.settings.time := by
  cases k <;>
    first
      | exact ⟨rfl, rfl⟩
      | exact ⟨congrArg BackupSettings.keep_count (manualBackup_settings env bot),
               congrArg BackupSettings.time (manualBackup_settings env bot)⟩
      | (simp only [runCb]; split_ifs <;> exact ⟨rfl, rfl⟩)

theorem handleText_valid (env : Env) (bot : BotState) (content : String)
    (ctx : ReplyCtx) (h : validSettings bot.settings) :
    validSettings (handleText env bot content ctx).state'.settings := by
  cases ctx with
  | addPlayer =>
    unfold handleText
    split_ifs <;> exact h
  | sendMsg => exact h
  | setTime =>
    cases hp : parseTimeInput content with
    | none => simp only [handleText, hp]; exact h
    | some pr =>
      obtain ⟨hh, mm⟩ := pr
      obtain ⟨b0, b1, b2, b3⟩ := parseTimeInput_bounds content hh mm hp
      simp only [handleText, hp]
      exact ⟨h.1, hh, mm, b0, b1, b2, b3, rfl⟩
  | setCount =>
    cases hp : pyToInt content with
    | none => simp only [handleText, hp]; exact h
    | some c =>
      simp only [handleText, hp]
      split_ifs with hc
      · exact h
      · push_neg at hc
        exact ⟨⟨hc.1, hc.2⟩, h.2⟩
  | plain => exact h

/-- C9 amended: every settings mutation reachable through the dispatch layer
(keep-count and time inputs, interval buttons, the enable toggle) preserves
the invariant that `keep_count` lies in `[1, 50]` and the stored time is a
valid 24-hour `HH:MM`; the invariant can still be broken by the startup load,
which replaces the settings with unvalidated file contents. -/
theorem mutations_preserve_settings_invariant (env : Env) (bot : BotState)
    (uid : Int) (req : Request) (h : validSettings bot.settings) :
    validSettings (handleRequest env bot uid req).state'.settings := by
  cases req with
  | start => simp only [handleRequest]; split_ifs <;> exact h
  | status => simp only [handleRequest]; split_ifs <;> exact h
  | info => simp only [handleRequest]; split_ifs <;> exact h
  | logs n => simp only [handleRequest]; split_ifs <;> exact h
  | whitelistCmd => simp only [handleRequest]; split_ifs <;> exact h
  | helpCmd => simp only [handleRequest]; split_ifs <;> exact h
  | backupCmd =>
    simp only [handleRequest]
    split_ifs
    · exact h
    · rw [manualBackup_settings env bot]
      exact h
  | commandCmd args =>
    simp only [handleRequest]
    split_ifs
    · exact h
    · cases args <;> exact h
  | messageCmd args =>
    simp only [handleRequest]
    split_ifs
    · exact h
    · cases args <;> exact h
  | cb data =>
    simp only [handleRequest, dispatchCb]
    cases routeCb data with
    | none => exact h
    | some k =>
      split_ifs
      · exact h
      · obtain ⟨hk, ht⟩ := runCb_settings env bot k
        exact validSettings_of_eq_fields bot.settings _ hk ht h
  | text content ctx =>
    simp only [handleRequest]
    split_ifs
    · exact h
    · exact handleText_valid env bot content ctx h

theorem mutations_preserve_settings_invariant_witness :
    validSettings bot0.settings ∧
    validSettings
      (handleRequest env0 bot0 1 (Request.text "12" ReplyCtx.setCount)).state'.settings :=
  ⟨⟨⟨by decide, by decide⟩, 3, 0, by decide, by decide, by decide, by decide, by decide⟩,
   mutations_preserve_settings_invariant env0 bot0 1
     (Request.text "12" ReplyCtx.setCount)
     ⟨⟨by decide, by decide⟩, 3, 0, by decide, by decide, by decide, by decide, by decide⟩⟩

/-- C9 counterexample: the default settings satisfy the invariant, but the
startup load replaces them wholesale with the durable file contents without
validation, so a file carrying `keep_count = 0` produces a reachable state
that violates the invariant. -/
theorem startup_load_breaks_invariant :
    validSettings defaultSettings ∧
    ¬ validSettings (load_backup_settings (some loadedBad) defaultSettings) := by
  constructor
  · exact ⟨⟨by decide, by decide⟩, 3, 0, by decide, by decide, by decide, by decide,
      by decide⟩
  · intro hv
    have h1 : (1 : Int) ≤ 0 := hv.1.1
    omega

end McBot
